import Mathlib

/-!
Shallow embedding of the event-lifecycle server of syncro-event-desk.

The embedded code is `src/server/http.ts` (request handler `handleEvents`),
the event service functions (`createEvent`, `getEventById`, `getEventsByUser`,
`getApprovedEvents`, `getPendingEvents`, `updateEvent`, `deleteEvent`,
`approveEvent`, `rejectEvent`), and the PostgreSQL schema constraints of the
`events` table (`NOT NULL` columns, the `event_type` enum, the `valid_dates`
CHECK `end_date >= start_date`, and the `update_updated_at` trigger).

Modelling conventions:
 - Dates and timestamps are natural numbers (SQL DATE/TIMESTAMP are totally
   ordered; string representation is irrelevant to the verified properties).
 - The store is a list of event rows plus the serial counter; a database
   query either succeeds or fails atomically (`Except`), matching a
   single-statement PostgreSQL transaction.
 - A thrown database error propagates to the catch block of `handleRequest`,
   which answers status 500; that catch is folded into `handleEvents` here.
 - The `ORDER BY start_date` clauses and the join with the creator's
   name/email are presentation only and are not modelled.
-/

namespace EventDesk

inductive Role
  | admin
  | supervisor
  | coordenador
deriving DecidableEq, BEq, Repr

/-- The part of the verified-token user that `handleEvents` reads
(`user.id` and `user.role`). -/
structure AuthUser where
  id : Nat
  role : Role
deriving DecidableEq, Repr

inductive Status
  | pending
  | approved
  | rejected
deriving DecidableEq, BEq, Repr

/-- One row of the `events` table (interface `Event` in the service module). -/
structure Event where
  id : Nat
  title : String
  description : Option String
  start_date : Nat
  end_date : Nat
  start_time : Option String
  end_time : Option String
  all_day : Bool
  event_type : String
  status : Status
  created_by : Nat
  created_at : Nat
  updated_at : Nat
  approved_by : Option Nat
  approved_at : Option Nat
  google_calendar_event_id : Option String
deriving DecidableEq, Repr

/-- The fixed `event_type` PostgreSQL enum. -/
def eventTypeEnum : List String :=
  ["Evento", "Ação Pontual", "Projeto Institucional", "Projeto Pedagógico",
   "Expedição Pedagógica", "Formação", "Festa"]

/-- The events table plus its serial id counter. -/
structure Store where
  rows : List Event
  nextId : Nat
deriving DecidableEq, Repr

/-- Row-level constraints the database enforces on every stored row:
the `valid_dates` CHECK and membership of `event_type` in its enum. -/
def Event.rowOk (e : Event) : Bool :=
  decide (e.start_date ≤ e.end_date) && eventTypeEnum.contains e.event_type

/-- Every stored row satisfies the database constraints. -/
def Store.wf (s : Store) : Bool :=
  s.rows.all Event.rowOk

/-- SELECT ... WHERE e.id = $1 (`getEventById`). -/
def getEventById (eventId : Nat) (s : Store) : Option Event :=
  s.rows.find? (fun e => e.id == eventId)

/-- SELECT ... WHERE e.created_by = $1 (`getEventsByUser`). -/
def getEventsByUser (userId : Nat) (s : Store) : List Event :=
  s.rows.filter (fun e => e.created_by == userId)

/-- SELECT ... WHERE e.status = approved (`getApprovedEvents`). -/
def getApprovedEvents (s : Store) : List Event :=
  s.rows.filter (fun e => decide (e.status = Status.approved))

/-- SELECT ... WHERE e.status = pending (`getPendingEvents`). -/
def getPendingEvents (s : Store) : List Event :=
  s.rows.filter (fun e => decide (e.status = Status.pending))

/-- The argument record of `createEvent` as built by the POST create branch.
Optional values reflect that the handler forwards possibly-absent body
fields straight into the INSERT parameters (absent becomes SQL NULL). -/
structure CreateInput where
  title : Option String
  description : Option String
  start_date : Option Nat
  end_date : Option Nat
  start_time : Option String
  end_time : Option String
  all_day : Bool
  event_type : Option String
  status : Status
  created_by : Nat
deriving DecidableEq, Repr

/-- INSERT INTO events ... RETURNING * (`createEvent`). The database rejects
the row when a NOT NULL column is null, when `event_type` is not in its
enum, or when the `valid_dates` CHECK fails; `id` comes from the serial,
`created_at`/`updated_at` from CURRENT_TIMESTAMP, and the remaining
columns from their NULL defaults. -/
def createEvent (input : CreateInput) (s : Store) (now : Nat) :
    Except String (Event × Store) :=
  match input.title, input.start_date, input.end_date, input.event_type with
  | some t, some sd, some ed, some ty =>
    if eventTypeEnum.contains ty = false then
      .error "invalid input value for enum event_type"
    else if ed < sd then
      .error "new row violates check constraint valid_dates"
    else
      let e : Event :=
        { id := s.nextId
          title := t
          description := input.description
          start_date := sd
          end_date := ed
          start_time := input.start_time
          end_time := input.end_time
          all_day := input.all_day
          event_type := ty
          status := input.status
          created_by := input.created_by
          created_at := now
          updated_at := now
          approved_by := none
          approved_at := none
          google_calendar_event_id := none }
      .ok (e, { rows := s.rows ++ [e], nextId := s.nextId + 1 })
  | _, _, _, _ => .error "null value violates not-null constraint"

/-- A `Partial Event` update payload: each field of the row is present
(`some`) or absent (`none`); for nullable columns the present value may
itself be null. `creator` records whether the denormalised creator key was
present. -/
structure EventUpdate where
  id : Option Nat := none
  title : Option String := none
  description : Option (Option String) := none
  start_date : Option Nat := none
  end_date : Option Nat := none
  start_time : Option (Option String) := none
  end_time : Option (Option String) := none
  all_day : Option Bool := none
  event_type : Option String := none
  status : Option Status := none
  created_by : Option Nat := none
  created_at : Option Nat := none
  updated_at : Option Nat := none
  approved_by : Option (Option Nat) := none
  approved_at : Option (Option Nat) := none
  google_calendar_event_id : Option (Option String) := none
  creator : Bool := false
deriving DecidableEq, Repr

/-- True when at least one field survives the immutable-field filter of
`updateEvent` (which skips `id`, `created_at`, `created_by` and `creator`),
i.e. when the built UPDATE statement has a non-empty SET list. -/
def EventUpdate.hasMutableField (u : EventUpdate) : Bool :=
  u.title.isSome || u.description.isSome || u.start_date.isSome ||
  u.end_date.isSome || u.start_time.isSome || u.end_time.isSome ||
  u.all_day.isSome || u.event_type.isSome || u.status.isSome ||
  u.updated_at.isSome || u.approved_by.isSome || u.approved_at.isSome ||
  u.google_calendar_event_id.isSome

/-- Effect of the UPDATE's SET list on one row, combined with the
`update_updated_at` BEFORE UPDATE trigger, which forces
`updated_at := CURRENT_TIMESTAMP` over any client-supplied value.
The immutable fields `id`, `created_at` and `created_by` were filtered out
of the SET list by `updateEvent`, so they are kept. -/
def applyUpdate (e : Event) (u : EventUpdate) (now : Nat) : Event :=
  { e with
    title := u.title.getD e.title
    description := u.description.getD e.description
    start_date := u.start_date.getD e.start_date
    end_date := u.end_date.getD e.end_date
    start_time := u.start_time.getD e.start_time
    end_time := u.end_time.getD e.end_time
    all_day := u.all_day.getD e.all_day
    event_type := u.event_type.getD e.event_type
    status := u.status.getD e.status
    approved_by := u.approved_by.getD e.approved_by
    approved_at := u.approved_at.getD e.approved_at
    google_calendar_event_id :=
      u.google_calendar_event_id.getD e.google_calendar_event_id
    updated_at := now }

/-- UPDATE events SET ... WHERE id = $n RETURNING * (`updateEvent`).
Fields named `id`, `created_at`, `created_by` or `creator` are skipped when
building the SET list; with no remaining fields the function returns
`getEventById` without touching the store. The database rejects an
`event_type` value outside its enum and a new row violating the
`valid_dates` CHECK; on zero matched rows the function returns null. -/
def updateEvent (eventId : Nat) (u : EventUpdate) (s : Store) (now : Nat) :
    Except String (Option Event × Store) :=
  if u.hasMutableField = false then
    .ok (getEventById eventId s, s)
  else if u.event_type.any (fun ty => !eventTypeEnum.contains ty) then
    .error "invalid input value for enum event_type"
  else
    match getEventById eventId s with
    | none => .ok (none, s)
    | some e =>
      if (applyUpdate e u now).end_date < (applyUpdate e u now).start_date then
        .error "new row violates check constraint valid_dates"
      else
        .ok (some (applyUpdate e u now),
          { s with
            rows := s.rows.map
              (fun r => if r.id == eventId then applyUpdate e u now else r) })

/-- DELETE FROM events WHERE id = $1 (`deleteEvent`). -/
def deleteEvent (eventId : Nat) (s : Store) : Store :=
  { s with rows := s.rows.filter (fun e => e.id != eventId) }

/-- `approveEvent`: an unconditional `updateEvent` setting status, approver
and decision timestamp; there is no check of the current status. -/
def approveEvent (eventId approverId : Nat) (s : Store) (now : Nat) :
    Except String (Option Event × Store) :=
  updateEvent eventId
    { status := some Status.approved
      approved_by := some (some approverId)
      approved_at := some (some now) } s now

/-- `rejectEvent`: same as `approveEvent` with status rejected. -/
def rejectEvent (eventId approverId : Nat) (s : Store) (now : Nat) :
    Except String (Option Event × Store) :=
  updateEvent eventId
    { status := some Status.rejected
      approved_by := some (some approverId)
      approved_at := some (some now) } s now

/-- Model of JavaScript `parseInt` on a route segment: the numeric value of a
decimal segment, `none` for NaN. (`parseInt` also accepts digits followed by
garbage; such segments do not occur in the verified properties.) -/
def parseIntOpt (a : String) : Option Nat :=
  if a.data = [] then none
  else if a.data.all Char.isDigit then
    some (a.data.foldl (fun n c => n * 10 + (c.toNat - 48)) 0)
  else none

/-- A parsed JSON request body, covering every key `handleEvents` reads:
the `Partial Event` keys for PUT (and the create fields it shares), plus
`eventId` for approve/reject. -/
structure Body extends EventUpdate where
  eventId : Option Nat := none
deriving DecidableEq, Repr

inductive RespBody
  | err (msg : String)
  | event (e : Option Event)
  | events (es : List Event)
  | msg (m : String)
deriving DecidableEq, Repr

structure Response where
  status : Nat
  body : RespBody
deriving DecidableEq, Repr

/-- The `handleEvents` router of `http.ts`, composed with the catch block of
`handleRequest` that turns a thrown database error into status 500. The
`user?` argument is the result of `extractUser`. Fall-through cases that the
original if-chain reaches only with the same method (a GET or DELETE whose
segment is NaN reaches the final 404) are written in place. The JavaScript
falsiness test `!eventId` of the approve/reject branches rejects both an
absent and a zero `eventId`. -/
def handleEventsUser (user : AuthUser) (method action : String)
    (body : Body) (s : Store) (now : Nat) : Response × Store :=
  if method = "GET" then
      if action = "my-events" then
        (⟨200, .events (getEventsByUser user.id s)⟩, s)
      else if action = "approved" then
        (⟨200, .events (getApprovedEvents s)⟩, s)
      else if action = "pending" ∧ (user.role = Role.admin ∨ user.role = Role.supervisor) then
        (⟨200, .events (getPendingEvents s)⟩, s)
      else
        match parseIntOpt action with
        | some eid =>
          match getEventById eid s with
          | none => (⟨404, .err "Event not found"⟩, s)
          | some e => (⟨200, .event (some e)⟩, s)
        | none => (⟨404, .err "Endpoint not found"⟩, s)
    else if method = "POST" ∧ action = "create" then
      match createEvent
        { title := body.title
          description := body.description.join
          start_date := body.start_date
          end_date := body.end_date
          start_time := body.start_time.join
          end_time := body.end_time.join
          all_day := body.all_day.getD false
          event_type := body.event_type
          status := Status.pending
          created_by := user.id } s now with
      | .error m => (⟨500, .err m⟩, s)
      | .ok (e, s2) => (⟨201, .event (some e)⟩, s2)
    else if method = "PUT" then
      match parseIntOpt action with
      | none => (⟨400, .err "Invalid event ID"⟩, s)
      | some eid =>
        match getEventById eid s with
        | none => (⟨404, .err "Event not found"⟩, s)
        | some e =>
          if e.created_by ≠ user.id ∧ user.role ≠ Role.admin ∧ user.role ≠ Role.supervisor then
            (⟨403, .err "Forbidden"⟩, s)
          else
            match updateEvent eid body.toEventUpdate s now with
            | .error m => (⟨500, .err m⟩, s)
            | .ok (r, s2) => (⟨200, .event r⟩, s2)
    else if method = "DELETE" then
      match parseIntOpt action with
      | none => (⟨404, .err "Endpoint not found"⟩, s)
      | some eid =>
        match getEventById eid s with
        | none => (⟨404, .err "Event not found"⟩, s)
        | some e =>
          if e.created_by ≠ user.id ∧ user.role ≠ Role.admin ∧ user.role ≠ Role.supervisor then
            (⟨403, .err "Forbidden"⟩, s)
          else
            (⟨200, .msg "Event deleted"⟩, deleteEvent eid s)
    else if method = "POST" ∧ action = "approve" ∧ (user.role = Role.admin ∨ user.role = Role.supervisor) then
      match body.eventId with
      | none => (⟨400, .err "eventId required"⟩, s)
      | some 0 => (⟨400, .err "eventId required"⟩, s)
      | some eid =>
        match approveEvent eid user.id s now with
        | .error m => (⟨500, .err m⟩, s)
        | .ok (r, s2) => (⟨200, .event r⟩, s2)
    else if method = "POST" ∧ action = "reject" ∧ (user.role = Role.admin ∨ user.role = Role.supervisor) then
      match body.eventId with
      | none => (⟨400, .err "eventId required"⟩, s)
      | some 0 => (⟨400, .err "eventId required"⟩, s)
      | some eid =>
        match rejectEvent eid user.id s now with
        | .error m => (⟨500, .err m⟩, s)
        | .ok (r, s2) => (⟨200, .event r⟩, s2)
    else
      (⟨404, .err "Endpoint not found"⟩, s)

/-- The entry point: `handleEvents` first resolves the user via `extractUser`
and answers 401 with no further processing when there is none. -/
def handleEvents (user? : Option AuthUser) (method action : String)
    (body : Body) (s : Store) (now : Nat) : Response × Store :=
  match user? with
  | none => (⟨401, .err "Unauthorized"⟩, s)
  | some user => handleEventsUser user method action body s now

/-- A pending sample event owned by user 5. -/
def evPending : Event :=
  { id := 1
    title := "Workshop"
    description := none
    start_date := 10
    end_date := 12
    start_time := none
    end_time := none
    all_day := true
    event_type := "Formação"
    status := Status.pending
    created_by := 5
    created_at := 1
    updated_at := 1
    approved_by := none
    approved_at := none
    google_calendar_event_id := none }

/-- The sample event after an approval by user 7 at time 2. -/
def evApproved : Event :=
  { evPending with
    status := Status.approved
    approved_by := some 7
    approved_at := some 2
    updated_at := 2 }

def storePending : Store := { rows := [evPending], nextId := 2 }

def storeApproved : Store := { rows := [evApproved], nextId := 2 }

def supUser : AuthUser := { id := 9, role := Role.supervisor }

def coordOwner : AuthUser := { id := 5, role := Role.coordenador }

def coordOther : AuthUser := { id := 6, role := Role.coordenador }

/-! Helper lemmas about the store operations. -/

theorem rowOk_iff (e : Event) :
    e.rowOk = true ↔ e.start_date ≤ e.end_date ∧ eventTypeEnum.contains e.event_type = true := by
  simp [Event.rowOk]

theorem wf_iff (s : Store) :
    s.wf = true ↔ ∀ e ∈ s.rows, e.rowOk = true := by
  simp [Store.wf, List.all_eq_true]

theorem find?_map_replace (eventId : Nat) (e2 : Event) (l : List Event)
    (hid : e2.id = eventId)
    (hfind : (l.find? (fun r => r.id == eventId)).isSome = true) :
    (l.map (fun r => if r.id == eventId then e2 else r)).find?
      (fun r => r.id == eventId) = some e2 := by
  induction l with
  | nil => simp [List.find?] at hfind
  | cons a t ih =>
    by_cases h : a.id = eventId
    · simp [List.map, h, hid, List.find?_cons_of_pos]
    · have h2 : (a.id == eventId) = false := by simp [h]
      simp only [List.map, h2, if_neg, Bool.false_eq_true, not_false_iff, ite_false]
      rw [List.find?_cons_of_neg _ (by simp [h]), ih]
      rw [List.find?_cons_of_neg _ (by simp [h])] at hfind
      exact hfind

theorem getEventById_mem {eventId : Nat} {s : Store} {e : Event}
    (h : getEventById eventId s = some e) : e ∈ s.rows ∧ e.id = eventId := by
  unfold getEventById at h
  refine ⟨List.mem_of_find?_eq_some h, ?_⟩
  have := List.find?_some h
  simpa using this

theorem createEvent_wf {input : CreateInput} {s : Store} {now : Nat}
    {e : Event} {s2 : Store}
    (h : createEvent input s now = .ok (e, s2)) (hwf : s.wf = true) :
    s2.wf = true := by
  unfold createEvent at h
  split at h
  case h_2 => simp at h
  rename_i t sd ed ty
  split at h
  · simp at h
  · rename_i henum
    split at h
    · simp at h
    · rename_i hdate
      rw [Except.ok.injEq, Prod.mk.injEq] at h
      obtain ⟨he, hs2⟩ := h
      subst hs2
      rw [wf_iff]
      intro r hr
      rw [List.mem_append] at hr
      rcases hr with hr | hr
      · exact (wf_iff s).mp hwf r hr
      · rw [List.mem_singleton] at hr
        subst hr
        rw [rowOk_iff]
        constructor
        · exact Nat.le_of_not_lt hdate
        · simpa using henum

theorem updateEvent_wf {eventId : Nat} {u : EventUpdate} {s : Store} {now : Nat}
    {r : Option Event} {s2 : Store}
    (h : updateEvent eventId u s now = .ok (r, s2)) (hwf : s.wf = true) :
    s2.wf = true := by
  unfold updateEvent at h
  split at h
  · rw [Except.ok.injEq, Prod.mk.injEq] at h
    exact h.2 ▸ hwf
  · split at h
    · simp at h
    · rename_i hmut henum
      split at h
      · rw [Except.ok.injEq, Prod.mk.injEq] at h
        exact h.2 ▸ hwf
      · rename_i e hfind
        split at h
        · simp at h
        · rename_i hdate
          rw [Except.ok.injEq, Prod.mk.injEq] at h
          obtain ⟨hr, hs2⟩ := h
          subst hs2
          rw [wf_iff]
          intro x hx
          simp only [List.mem_map] at hx
          obtain ⟨y, hy, hxy⟩ := hx
          have hok2 : (applyUpdate e u now).rowOk = true := by
            rw [rowOk_iff]
            constructor
            · exact Nat.le_of_not_lt hdate
            · have hty : (applyUpdate e u now).event_type = u.event_type.getD e.event_type := rfl
              cases hty2 : u.event_type with
              | some ty =>
                rw [hty, hty2]
                have h3 := henum
                rw [hty2] at h3
                simpa [Option.any] using h3
              | none =>
                rw [hty, hty2]
                have hmem := (getEventById_mem hfind).1
                have h4 := (wf_iff s).mp hwf e hmem
                exact ((rowOk_iff e).mp h4).2
          by_cases hyid : y.id = eventId
          · rw [← hxy]
            rw [if_pos (by simpa using hyid)]
            exact hok2
          · rw [← hxy]
            rw [if_neg (by simpa using hyid)]
            exact (wf_iff s).mp hwf y hy

theorem deleteEvent_wf {eventId : Nat} {s : Store}
    (hwf : s.wf = true) : (deleteEvent eventId s).wf = true := by
  rw [wf_iff]
  intro e he
  unfold deleteEvent at he
  simp only [List.mem_filter] at he
  exact (wf_iff s).mp hwf e he.1

theorem approveEvent_wf {eventId approverId : Nat} {s : Store} {now : Nat}
    {r : Option Event} {s2 : Store}
    (h : approveEvent eventId approverId s now = .ok (r, s2)) (hwf : s.wf = true) :
    s2.wf = true := by
  unfold approveEvent at h
  exact updateEvent_wf h hwf

theorem rejectEvent_wf {eventId approverId : Nat} {s : Store} {now : Nat}
    {r : Option Event} {s2 : Store}
    (h : rejectEvent eventId approverId s now = .ok (r, s2)) (hwf : s.wf = true) :
    s2.wf = true := by
  unfold rejectEvent at h
  exact updateEvent_wf h hwf

theorem updateEvent_ok {eventId : Nat} {u : EventUpdate} {s : Store} {now : Nat}
    {e : Event}
    (hmut : u.hasMutableField = true)
    (henum : u.event_type.any (fun ty => !eventTypeEnum.contains ty) = false)
    (hfind : getEventById eventId s = some e)
    (hdate : (applyUpdate e u now).start_date ≤ (applyUpdate e u now).end_date) :
    updateEvent eventId u s now =
      .ok (some (applyUpdate e u now),
        { s with
          rows := s.rows.map
            (fun r => if r.id == eventId then applyUpdate e u now else r) }) := by
  unfold updateEvent
  rw [if_neg (by simp [hmut]), if_neg (by rw [henum]; simp), hfind]
  simp only []
  rw [if_neg (Nat.not_lt.mpr hdate)]

theorem getEventById_after_update {eventId : Nat} {u : EventUpdate} {s : Store}
    {now : Nat} {e : Event}
    (hfind : getEventById eventId s = some e) :
    getEventById eventId
      { s with
        rows := s.rows.map
          (fun r => if r.id == eventId then applyUpdate e u now else r) } =
      some (applyUpdate e u now) := by
  unfold getEventById
  apply find?_map_replace
  · have hid : e.id = eventId := (getEventById_mem hfind).2
    show (applyUpdate e u now).id = eventId
    simpa [applyUpdate] using hid
  · unfold getEventById at hfind
    rw [hfind]
    rfl

theorem handleEvents_wf (user? : Option AuthUser) (method action : String)
    (body : Body) (s : Store) (now : Nat) (hwf : s.wf = true) :
    ((handleEvents user? method action body s now).2).wf = true := by
  unfold handleEvents
  cases user? with
  | none => exact hwf
  | some u =>
    unfold handleEventsUser
    repeat' split
    all_goals first
      | exact hwf
      | (rename_i heq; exact createEvent_wf heq hwf)
      | (rename_i heq; exact updateEvent_wf heq hwf)
      | exact deleteEvent_wf hwf

/-! Characterizations of the individual router branches. -/

theorem create_branch (u : AuthUser) (body : Body) (s : Store) (now : Nat) :
    handleEvents (some u) "POST" "create" body s now =
      match createEvent
        { title := body.title
          description := body.description.join
          start_date := body.start_date
          end_date := body.end_date
          start_time := body.start_time.join
          end_time := body.end_time.join
          all_day := body.all_day.getD false
          event_type := body.event_type
          status := Status.pending
          created_by := u.id } s now with
      | .error m => (⟨500, .err m⟩, s)
      | .ok (e, s2) => (⟨201, .event (some e)⟩, s2) := by
  show handleEventsUser u "POST" "create" body s now = _
  unfold handleEventsUser
  rw [if_neg (by decide), if_pos ⟨rfl, rfl⟩]

theorem put_branch (u : AuthUser) (action : String) (eid : Nat) (body : Body)
    (s : Store) (now : Nat) (hact : parseIntOpt action = some eid) :
    handleEvents (some u) "PUT" action body s now =
      match getEventById eid s with
      | none => (⟨404, .err "Event not found"⟩, s)
      | some e =>
        if e.created_by ≠ u.id ∧ u.role ≠ Role.admin ∧ u.role ≠ Role.supervisor then
          (⟨403, .err "Forbidden"⟩, s)
        else
          match updateEvent eid body.toEventUpdate s now with
          | .error m => (⟨500, .err m⟩, s)
          | .ok (r, s2) => (⟨200, .event r⟩, s2) := by
  show handleEventsUser u "PUT" action body s now = _
  unfold handleEventsUser
  rw [if_neg (by decide), if_neg (by simp), if_pos rfl, hact]

theorem delete_branch (u : AuthUser) (action : String) (eid : Nat) (body : Body)
    (s : Store) (now : Nat) (hact : parseIntOpt action = some eid) :
    handleEvents (some u) "DELETE" action body s now =
      match getEventById eid s with
      | none => (⟨404, .err "Event not found"⟩, s)
      | some e =>
        if e.created_by ≠ u.id ∧ u.role ≠ Role.admin ∧ u.role ≠ Role.supervisor then
          (⟨403, .err "Forbidden"⟩, s)
        else
          (⟨200, .msg "Event deleted"⟩, deleteEvent eid s) := by
  show handleEventsUser u "DELETE" action body s now = _
  unfold handleEventsUser
  rw [if_neg (by decide), if_neg (by simp), if_neg (by decide), if_pos rfl, hact]

theorem approve_branch (u : AuthUser) (eid : Nat) (body : Body) (s : Store)
    (now : Nat)
    (hrole : u.role = Role.admin ∨ u.role = Role.supervisor)
    (hbody : body.eventId = some eid) (hnz : eid ≠ 0) :
    handleEvents (some u) "POST" "approve" body s now =
      match approveEvent eid u.id s now with
      | .error m => (⟨500, .err m⟩, s)
      | .ok (r, s2) => (⟨200, .event r⟩, s2) := by
  obtain ⟨k, rfl⟩ := Nat.exists_eq_succ_of_ne_zero hnz
  show handleEventsUser u "POST" "approve" body s now = _
  unfold handleEventsUser
  rw [if_neg (by decide), if_neg (by decide), if_neg (by decide),
    if_neg (by decide), if_pos ⟨rfl, rfl, hrole⟩, hbody]
  rfl

theorem reject_branch (u : AuthUser) (eid : Nat) (body : Body) (s : Store)
    (now : Nat)
    (hrole : u.role = Role.admin ∨ u.role = Role.supervisor)
    (hbody : body.eventId = some eid) (hnz : eid ≠ 0) :
    handleEvents (some u) "POST" "reject" body s now =
      match rejectEvent eid u.id s now with
      | .error m => (⟨500, .err m⟩, s)
      | .ok (r, s2) => (⟨200, .event r⟩, s2) := by
  obtain ⟨k, rfl⟩ := Nat.exists_eq_succ_of_ne_zero hnz
  show handleEventsUser u "POST" "reject" body s now = _
  unfold handleEventsUser
  rw [if_neg (by decide), if_neg (by decide), if_neg (by decide),
    if_neg (by decide), if_neg (by simp), if_pos ⟨rfl, rfl, hrole⟩, hbody]
  rfl

theorem approveEvent_spec {eid aid : Nat} {s : Store} {now : Nat} {e : Event}
    (hfind : getEventById eid s = some e)
    (hle : e.start_date ≤ e.end_date) :
    approveEvent eid aid s now =
      .ok (some { e with status := Status.approved, approved_by := some aid,
                         approved_at := some now, updated_at := now },
        { s with
          rows := s.rows.map (fun r => if r.id == eid then
            { e with status := Status.approved, approved_by := some aid,
                     approved_at := some now, updated_at := now } else r) }) := by
  unfold approveEvent
  exact @updateEvent_ok eid
    { status := some Status.approved, approved_by := some (some aid),
      approved_at := some (some now) } s now e rfl rfl hfind hle

theorem rejectEvent_spec {eid aid : Nat} {s : Store} {now : Nat} {e : Event}
    (hfind : getEventById eid s = some e)
    (hle : e.start_date ≤ e.end_date) :
    rejectEvent eid aid s now =
      .ok (some { e with status := Status.rejected, approved_by := some aid,
                         approved_at := some now, updated_at := now },
        { s with
          rows := s.rows.map (fun r => if r.id == eid then
            { e with status := Status.rejected, approved_by := some aid,
                     approved_at := some now, updated_at := now } else r) }) := by
  unfold rejectEvent
  exact @updateEvent_ok eid
    { status := some Status.rejected, approved_by := some (some aid),
      approved_at := some (some now) } s now e rfl rfl hfind hle

theorem put_branch_found (u : AuthUser) (action : String) (eid : Nat)
    (body : Body) (s : Store) (now : Nat) (e : Event)
    (hact : parseIntOpt action = some eid)
    (hfind : getEventById eid s = some e) :
    handleEvents (some u) "PUT" action body s now =
      if e.created_by ≠ u.id ∧ u.role ≠ Role.admin ∧ u.role ≠ Role.supervisor then
        (⟨403, .err "Forbidden"⟩, s)
      else
        match updateEvent eid body.toEventUpdate s now with
        | .error m => (⟨500, .err m⟩, s)
        | .ok (r, s2) => (⟨200, .event r⟩, s2) := by
  rw [put_branch u action eid body s now hact, hfind]

theorem delete_branch_found (u : AuthUser) (action : String) (eid : Nat)
    (body : Body) (s : Store) (now : Nat) (e : Event)
    (hact : parseIntOpt action = some eid)
    (hfind : getEventById eid s = some e) :
    handleEvents (some u) "DELETE" action body s now =
      if e.created_by ≠ u.id ∧ u.role ≠ Role.admin ∧ u.role ≠ Role.supervisor then
        (⟨403, .err "Forbidden"⟩, s)
      else
        (⟨200, .msg "Event deleted"⟩, deleteEvent eid s) := by
  rw [delete_branch u action eid body s now hact, hfind]

/-! Claim theorems. -/

/-- C1, counterexample: calling approve on an event whose status is already
approved does not fail with InvalidTransition; it answers 200 and overwrites
the approver (7 becomes 9) and the decision timestamp (2 becomes 3) written
by the first call. -/
theorem C1_counterexample :
    evApproved.status ≠ Status.pending ∧
    evApproved.approved_by = some 7 ∧
    evApproved.approved_at = some 2 ∧
    (handleEvents (some supUser) "POST" "approve" { eventId := some 1 }
      storeApproved 3).1.status = 200 ∧
    getEventById 1 (handleEvents (some supUser) "POST" "approve"
      { eventId := some 1 } storeApproved 3).2 =
      some { evApproved with approved_by := some 9, approved_at := some 3,
                             updated_at := 3 } := by
  decide

/-- C1, amended: `approveEvent` and `rejectEvent` perform an unconditional
update with no status precondition: for every existing event, whatever its
current status, a privileged approve (or reject) call answers 200 and
overwrites status, approver and decision timestamp; no InvalidTransition
error exists in the code, and a second approve clobbers the first approver
and timestamp. -/
theorem C1_approve_ignores_status (u : AuthUser) (eid now : Nat) (e : Event)
    (s : Store) (body : Body)
    (hrole : u.role = Role.admin ∨ u.role = Role.supervisor)
    (hbody : body.eventId = some eid)
    (hnz : eid ≠ 0)
    (hfind : getEventById eid s = some e)
    (hok : e.rowOk = true) :
    (handleEvents (some u) "POST" "approve" body s now).1.status = 200 ∧
    getEventById eid (handleEvents (some u) "POST" "approve" body s now).2 =
      some { e with status := Status.approved, approved_by := some u.id,
                    approved_at := some now, updated_at := now } ∧
    (handleEvents (some u) "POST" "reject" body s now).1.status = 200 ∧
    getEventById eid (handleEvents (some u) "POST" "reject" body s now).2 =
      some { e with status := Status.rejected, approved_by := some u.id,
                    approved_at := some now, updated_at := now } := by
  have hle : e.start_date ≤ e.end_date := ((rowOk_iff e).mp hok).1
  rw [approve_branch u eid body s now hrole hbody hnz,
    reject_branch u eid body s now hrole hbody hnz,
    approveEvent_spec hfind hle, rejectEvent_spec hfind hle]
  refine ⟨rfl, ?_, rfl, ?_⟩
  · exact @getEventById_after_update eid
      { status := some Status.approved, approved_by := some (some u.id),
        approved_at := some (some now) } s now e hfind
  · exact @getEventById_after_update eid
      { status := some Status.rejected, approved_by := some (some u.id),
        approved_at := some (some now) } s now e hfind

/-- Witness for C1, amended: a concrete approve and reject by supervisor 9
at time 3 on a pending event. -/
theorem C1_witness :
    (handleEvents (some supUser) "POST" "approve" { eventId := some 1 }
      storePending 3).1.status = 200 ∧
    getEventById 1 (handleEvents (some supUser) "POST" "approve"
      { eventId := some 1 } storePending 3).2 =
      some { evPending with status := Status.approved, approved_by := some 9,
                            approved_at := some 3, updated_at := 3 } ∧
    (handleEvents (some supUser) "POST" "reject" { eventId := some 1 }
      storePending 3).1.status = 200 ∧
    getEventById 1 (handleEvents (some supUser) "POST" "reject"
      { eventId := some 1 } storePending 3).2 =
      some { evPending with status := Status.rejected, approved_by := some 9,
                            approved_at := some 3, updated_at := 3 } :=
  C1_approve_ignores_status supUser 1 3 evPending storePending
    { eventId := some 1 } (Or.inr rfl) rfl (by decide) (by decide) (by decide)

/-- C2, counterexample: the owner, role coordenador, updates and deletes
their own event whose status is approved; both calls answer 200, not the
Unauthorized 403 the claim requires. -/
theorem C2_counterexample :
    evApproved.status = Status.approved ∧
    evApproved.created_by = coordOwner.id ∧
    coordOwner.role = Role.coordenador ∧
    (handleEvents (some coordOwner) "PUT" "1" { title := some "New" }
      storeApproved 3).1.status = 200 ∧
    (handleEvents (some coordOwner) "PUT" "1" { title := some "New" }
      storeApproved 3).1.status ≠ 403 ∧
    (handleEvents (some coordOwner) "DELETE" "1" {} storeApproved 3).1.status
      = 200 := by
  decide

/-- C2, amended: for a coordenador, update and delete of an existing event
are gated by ownership only, not by status: a request on another user's
event yields 403 with no store mutation, while a request by the owner
succeeds with 200 whatever the event's status (pending, approved or
rejected). -/
theorem C2_ownership_only_gates (u : AuthUser) (action : String)
    (eid now : Nat) (e : Event) (s : Store) (t : String)
    (hrole : u.role = Role.coordenador)
    (hact : parseIntOpt action = some eid)
    (hfind : getEventById eid s = some e)
    (hok : e.rowOk = true) :
    (e.created_by ≠ u.id →
      handleEvents (some u) "PUT" action { title := some t } s now =
        (⟨403, .err "Forbidden"⟩, s) ∧
      handleEvents (some u) "DELETE" action {} s now =
        (⟨403, .err "Forbidden"⟩, s)) ∧
    (e.created_by = u.id →
      (handleEvents (some u) "PUT" action { title := some t } s now).1.status
        = 200 ∧
      getEventById eid
        (handleEvents (some u) "PUT" action { title := some t } s now).2 =
        some { e with title := t, updated_at := now } ∧
      handleEvents (some u) "DELETE" action {} s now =
        (⟨200, .msg "Event deleted"⟩, deleteEvent eid s)) := by
  have hle : e.start_date ≤ e.end_date := ((rowOk_iff e).mp hok).1
  have hput := put_branch_found u action eid { title := some t } s now e hact hfind
  have hdel := delete_branch_found u action eid {} s now e hact hfind
  constructor
  · intro hne
    have hcond : e.created_by ≠ u.id ∧ u.role ≠ Role.admin ∧ u.role ≠ Role.supervisor :=
      ⟨hne, by simp [hrole], by simp [hrole]⟩
    rw [if_pos hcond] at hput hdel
    exact ⟨hput, hdel⟩
  · intro hown
    have hcond : ¬(e.created_by ≠ u.id ∧ u.role ≠ Role.admin ∧ u.role ≠ Role.supervisor) := by
      intro hc
      exact hc.1 hown
    rw [if_neg hcond] at hput hdel
    have hupd := @updateEvent_ok eid ({ title := some t } : Body).toEventUpdate
      s now e rfl rfl hfind hle
    rw [hupd] at hput
    refine ⟨?_, ?_, hdel⟩
    · rw [hput]
    · rw [hput]
      exact @getEventById_after_update eid
        ({ title := some t } : Body).toEventUpdate s now e hfind

/-- Witness for C2, amended: coordenador 6 is refused (403) on user 5's
approved event, and owner 5 deletes their own approved event with 200. -/
theorem C2_witness :
    handleEvents (some coordOther) "PUT" "1" { title := some "X" }
      storeApproved 3 = (⟨403, .err "Forbidden"⟩, storeApproved) ∧
    handleEvents (some coordOwner) "DELETE" "1" {} storeApproved 3 =
      (⟨200, .msg "Event deleted"⟩, deleteEvent 1 storeApproved) :=
  ⟨((C2_ownership_only_gates coordOther "1" 1 3 evApproved storeApproved "X"
      rfl (by decide) (by decide) (by decide)).1 (by decide)).1,
   ((C2_ownership_only_gates coordOwner "1" 1 3 evApproved storeApproved "X"
      rfl (by decide) (by decide) (by decide)).2 (by decide)).2.2⟩

/-- C3: `updateEvent` applies every field present in the PUT body except
`id`, `created_at`, `created_by` and `creator` — including `status`,
`approved_by` and `approved_at` — so a PUT by the owner, role coordenador,
carrying those fields sets their own event's status to approved (with any
approver and timestamp values) with no supervisor involvement, answering
200. -/
theorem C3_owner_sets_status (u : AuthUser) (action : String) (eid now : Nat)
    (e : Event) (s : Store) (aid at2 : Nat)
    (hrole : u.role = Role.coordenador)
    (hact : parseIntOpt action = some eid)
    (hfind : getEventById eid s = some e)
    (hown : e.created_by = u.id)
    (hok : e.rowOk = true) :
    (handleEvents (some u) "PUT" action
      { status := some Status.approved, approved_by := some (some aid),
        approved_at := some (some at2) } s now).1.status = 200 ∧
    getEventById eid (handleEvents (some u) "PUT" action
      { status := some Status.approved, approved_by := some (some aid),
        approved_at := some (some at2) } s now).2 =
      some { e with status := Status.approved, approved_by := some aid,
                    approved_at := some at2, updated_at := now } := by
  have hle : e.start_date ≤ e.end_date := ((rowOk_iff e).mp hok).1
  have hput := put_branch_found u action eid
    { status := some Status.approved, approved_by := some (some aid),
      approved_at := some (some at2) } s now e hact hfind
  rw [if_neg (fun hc => hc.1 hown)] at hput
  have hupd := @updateEvent_ok eid
    ({ status := some Status.approved, approved_by := some (some aid),
       approved_at := some (some at2) } : Body).toEventUpdate
    s now e rfl rfl hfind hle
  rw [hupd] at hput
  constructor
  · rw [hput]
  · rw [hput]
    exact @getEventById_after_update eid
      ({ status := some Status.approved, approved_by := some (some aid),
         approved_at := some (some at2) } : Body).toEventUpdate s now e hfind

/-- Witness for C3: owner 5, role coordenador, turns their own pending event
approved with approver 5 and timestamp 4 through a PUT. -/
theorem C3_witness :
    (handleEvents (some coordOwner) "PUT" "1"
      { status := some Status.approved, approved_by := some (some 5),
        approved_at := some (some 4) } storePending 3).1.status = 200 ∧
    getEventById 1 (handleEvents (some coordOwner) "PUT" "1"
      { status := some Status.approved, approved_by := some (some 5),
        approved_at := some (some 4) } storePending 3).2 =
      some { evPending with status := Status.approved, approved_by := some 5,
                            approved_at := some 4, updated_at := 3 } :=
  C3_owner_sets_status coordOwner "1" 1 3 evPending storePending 5 4
    rfl (by decide) (by decide) (by decide) (by decide)

/-- C4, counterexample: an authenticated coordenador issuing
GET /api/events/pending receives 404 (the role check makes the branch fall
through to the final endpoint-not-found case), not the Unauthorized 403 the
claim states. -/
theorem C4_counterexample :
    coordOther.role = Role.coordenador ∧
    (handleEvents (some coordOther) "GET" "pending" {} storePending 3).1.status
      ≠ 403 ∧
    (handleEvents (some coordOther) "GET" "pending" {} storePending 3) =
      (⟨404, .err "Endpoint not found"⟩, storePending) := by
  decide

/-- C4, amended: GET /api/events/pending answers, to supervisor or admin
actors only, exactly the stored events with status pending (status 200, no
mutation); an authenticated coordenador issuing the same request receives
404 endpoint-not-found (not 403), and the store is unchanged. -/
theorem C4_pending_supervisor_only (u : AuthUser) (body : Body) (s : Store)
    (now : Nat) :
    ((u.role = Role.admin ∨ u.role = Role.supervisor) →
      handleEvents (some u) "GET" "pending" body s now =
        (⟨200, .events (getPendingEvents s)⟩, s) ∧
      ∀ x ∈ getPendingEvents s, x.status = Status.pending) ∧
    (u.role = Role.coordenador →
      handleEvents (some u) "GET" "pending" body s now =
        (⟨404, .err "Endpoint not found"⟩, s)) := by
  constructor
  · intro hrole
    constructor
    · show handleEventsUser u "GET" "pending" body s now = _
      unfold handleEventsUser
      rw [if_pos rfl, if_neg (by decide), if_neg (by decide),
        if_pos ⟨rfl, hrole⟩]
    · intro x hx
      have hm := List.mem_filter.mp hx
      exact of_decide_eq_true hm.2
  · intro hrole
    show handleEventsUser u "GET" "pending" body s now = _
    unfold handleEventsUser
    rw [if_pos rfl, if_neg (by decide), if_neg (by decide),
      if_neg (by simp [hrole]),
      (by decide : parseIntOpt "pending" = (none : Option Nat))]

/-- Witness for C4, amended: supervisor 9 obtains exactly the pending list
of the sample store; coordenador 6 gets 404. -/
theorem C4_witness :
    handleEvents (some supUser) "GET" "pending" {} storePending 3 =
      (⟨200, .events (getPendingEvents storePending)⟩, storePending) ∧
    handleEvents (some coordOther) "GET" "pending" {} storePending 3 =
      (⟨404, .err "Endpoint not found"⟩, storePending) :=
  ⟨((C4_pending_supervisor_only supUser {} storePending 3).1 (Or.inr rfl)).1,
   (C4_pending_supervisor_only coordOther {} storePending 3).2 rfl⟩

/-- C5, counterexample: a create request with end_date 5 before start_date
10 is indeed refused without creating a record, but the handler has no date
validation of its own: the database CHECK violation surfaces through the
catch block as status 500, not as a ValidationError mapped to 400. -/
theorem C5_counterexample :
    (handleEvents (some coordOwner) "POST" "create"
      { title := some "X", event_type := some "Evento", start_date := some 10,
        end_date := some 5 } storePending 3).1.status ≠ 400 ∧
    (handleEvents (some coordOwner) "POST" "create"
      { title := some "X", event_type := some "Evento", start_date := some 10,
        end_date := some 5 } storePending 3).1.status = 500 ∧
    (handleEvents (some coordOwner) "POST" "create"
      { title := some "X", event_type := some "Evento", start_date := some 10,
        end_date := some 5 } storePending 3).2 = storePending := by
  decide

/-- C5, amended: every stored event satisfies end_date ≥ start_date — the
database CHECK makes this an invariant of every handler call — and a create
or update request carrying end_date < start_date fails without creating or
mutating any record, but with status 500 (the constraint violation
surfacing as an internal error), not with a ValidationError mapped to
400. -/
theorem C5_dates_invariant :
    (∀ user? method action body s now, Store.wf s = true →
      Store.wf (handleEvents user? method action body s now).2 = true ∧
      ∀ x ∈ (handleEvents user? method action body s now).2.rows,
        x.start_date ≤ x.end_date) ∧
    (∀ u body s now sd ed, (body : Body).start_date = some sd →
      body.end_date = some ed → ed < sd →
      (handleEvents (some u) "POST" "create" body s now).1.status = 500 ∧
      (handleEvents (some u) "POST" "create" body s now).2 = s) ∧
    (∀ u action eid body s now e sd ed, parseIntOpt action = some eid →
      getEventById eid s = some e → e.created_by = u.id →
      (body : Body).start_date = some sd → body.end_date = some ed →
      ed < sd → body.event_type = none →
      (handleEvents (some u) "PUT" action body s now).1.status = 500 ∧
      (handleEvents (some u) "PUT" action body s now).2 = s) := by
  refine ⟨?_, ?_, ?_⟩
  · intro user? method action body s now hwf
    have hw := handleEvents_wf user? method action body s now hwf
    refine ⟨hw, ?_⟩
    intro x hx
    exact ((rowOk_iff x).mp ((wf_iff _).mp hw x hx)).1
  · intro u body s now sd ed hsd hed hlt
    rw [create_branch u body s now]
    unfold createEvent
    rcases ht : body.title with _ | t
    · simp only [ht, hsd, hed]
      rcases hty : body.event_type with _ | ty <;> exact ⟨trivial, trivial⟩
    · rcases hty : body.event_type with _ | ty
      · simp only [ht, hsd, hed, hty]
        exact ⟨trivial, trivial⟩
      · simp only [ht, hsd, hed, hty]
        by_cases hc : eventTypeEnum.contains ty = false
        · rw [if_pos hc]
          exact ⟨rfl, rfl⟩
        · rw [if_neg hc, if_pos hlt]
          exact ⟨rfl, rfl⟩
  · intro u action eid body s now e sd ed hact hfind hown hsd hed hlt hty
    have hput := put_branch_found u action eid body s now e hact hfind
    rw [if_neg (fun hc => hc.1 hown)] at hput
    have hupd : updateEvent eid body.toEventUpdate s now =
        .error "new row violates check constraint valid_dates" := by
      unfold updateEvent
      rw [if_neg (by simp [EventUpdate.hasMutableField, hed]),
        if_neg (by simp [hty]), hfind]
      have hcond : (applyUpdate e body.toEventUpdate now).end_date <
          (applyUpdate e body.toEventUpdate now).start_date := by
        show body.toEventUpdate.end_date.getD e.end_date <
          body.toEventUpdate.start_date.getD e.start_date
        rw [hsd, hed]
        exact hlt
      simp only []
      rw [if_pos hcond]
    rw [hupd] at hput
    rw [hput]
    exact ⟨rfl, rfl⟩

/-- Witness for C5, amended: the well-formedness invariant after a concrete
approve call, and concrete create and update requests carrying end_date 5 <
start_date 10 answered with 500 and an unchanged store. -/
theorem C5_witness :
    (Store.wf (handleEvents (some supUser) "POST" "approve"
        { eventId := some 1 } storePending 3).2 = true) ∧
    ((handleEvents (some coordOwner) "POST" "create"
        { title := some "Y", event_type := some "Festa", start_date := some 10,
          end_date := some 5 } storePending 3).1.status = 500 ∧
      (handleEvents (some coordOwner) "POST" "create"
        { title := some "Y", event_type := some "Festa", start_date := some 10,
          end_date := some 5 } storePending 3).2 = storePending) ∧
    ((handleEvents (some coordOwner) "PUT" "1"
        { start_date := some 10, end_date := some 5 } storePending 3).1.status
        = 500 ∧
      (handleEvents (some coordOwner) "PUT" "1"
        { start_date := some 10, end_date := some 5 } storePending 3).2 =
        storePending) :=
  ⟨(C5_dates_invariant.1 (some supUser) "POST" "approve" { eventId := some 1 }
      storePending 3 (by decide)).1,
   C5_dates_invariant.2.1 coordOwner
     { title := some "Y", event_type := some "Festa", start_date := some 10,
       end_date := some 5 } storePending 3 10 5 rfl rfl (by decide),
   C5_dates_invariant.2.2 coordOwner "1" 1
     { start_date := some 10, end_date := some 5 } storePending 3 evPending
     10 5 (by decide) (by decide) (by decide) rfl rfl (by decide) rfl⟩

/-- C6, counterexample: a create request whose event_type Picnic is outside
the fixed enumeration is refused with no event created, but the enum
violation comes from the database and surfaces as status 500 through the
catch block, not as a ValidationError mapped to 400. -/
theorem C6_counterexample :
    (handleEvents (some coordOwner) "POST" "create"
      { title := some "X", event_type := some "Picnic", start_date := some 5,
        end_date := some 10 } storePending 3).1.status ≠ 400 ∧
    (handleEvents (some coordOwner) "POST" "create"
      { title := some "X", event_type := some "Picnic", start_date := some 5,
        end_date := some 10 } storePending 3).1.status = 500 ∧
    (handleEvents (some coordOwner) "POST" "create"
      { title := some "X", event_type := some "Picnic", start_date := some 5,
        end_date := some 10 } storePending 3).2 = storePending := by
  decide

/-- C6, amended: every create request whose event_type is present but not in
the fixed enumeration {Evento, Ação Pontual, Projeto Institucional, Projeto
Pedagógico, Expedição Pedagógica, Formação, Festa} fails with no event
created, with status 500 (the database enum violation surfaced as an
internal error) rather than a ValidationError mapped to 400. -/
theorem C6_invalid_event_type (u : AuthUser) (body : Body) (s : Store)
    (now : Nat) (ty : String)
    (hty : body.event_type = some ty)
    (henum : eventTypeEnum.contains ty = false) :
    (handleEvents (some u) "POST" "create" body s now).1.status = 500 ∧
    (handleEvents (some u) "POST" "create" body s now).2 = s := by
  rw [create_branch u body s now]
  unfold createEvent
  rcases ht : body.title with _ | t
  · simp only [ht, hty]
    rcases hsd : body.start_date with _ | sd <;>
      rcases hed : body.end_date with _ | ed <;> exact ⟨trivial, trivial⟩
  · rcases hsd : body.start_date with _ | sd
    · simp only [ht, hsd, hty]
      exact ⟨trivial, trivial⟩
    · rcases hed : body.end_date with _ | ed
      · simp only [ht, hsd, hed, hty]
        exact ⟨trivial, trivial⟩
      · simp only [ht, hsd, hed, hty]
        rw [if_pos henum]
        exact ⟨rfl, rfl⟩

/-- Witness for C6, amended: a concrete create request with event_type
Picnic answered 500 with the store unchanged. -/
theorem C6_witness :
    (handleEvents (some supUser) "POST" "create"
      { title := some "Z", event_type := some "Picnic", start_date := some 5,
        end_date := some 6 } storePending 3).1.status = 500 ∧
    (handleEvents (some supUser) "POST" "create"
      { title := some "Z", event_type := some "Picnic", start_date := some 5,
        end_date := some 6 } storePending 3).2 = storePending :=
  C6_invalid_event_type supUser
    { title := some "Z", event_type := some "Picnic", start_date := some 5,
      end_date := some 6 } storePending 3 "Picnic" rfl (by decide)

/-- C7, counterexample: a PUT by the owner carrying only status=approved is
applied as-is, producing a stored event with status approved and approver
and decision timestamp still null, so the claimed invariant (approver and
decision timestamp null iff status pending) is not preserved by update. -/
theorem C7_counterexample :
    (handleEvents (some coordOwner) "PUT" "1" { status := some Status.approved }
      storePending 3).1.status = 200 ∧
    getEventById 1 (handleEvents (some coordOwner) "PUT" "1"
      { status := some Status.approved } storePending 3).2 =
      some { evPending with status := Status.approved, updated_at := 3 } ∧
    ({ evPending with status := Status.approved,
                      updated_at := 3 } : Event).status ≠ Status.pending ∧
    ({ evPending with status := Status.approved,
                      updated_at := 3 } : Event).approved_by = none := by
  decide

/-- C7, amended: create, approve and reject each establish the relation on
their own result — create stores status pending with approver and decision
timestamp null, approve and reject set status together with approver and
timestamp — but a PUT update can set status without the approver fields, so
the null-iff-pending invariant is not preserved by every operation. -/
theorem C7_decision_fields :
    (∀ u body s now t ty sd ed, (body : Body).title = some t →
      body.event_type = some ty → eventTypeEnum.contains ty = true →
      body.start_date = some sd → body.end_date = some ed → sd ≤ ed →
      ∃ e2 s2, handleEvents (some u) "POST" "create" body s now =
          (⟨201, .event (some e2)⟩, s2) ∧
        e2.status = Status.pending ∧ e2.approved_by = none ∧
        e2.approved_at = none) ∧
    (∀ u eid now e s body, (u : AuthUser).role = Role.admin ∨ u.role = Role.supervisor →
      (body : Body).eventId = some eid → eid ≠ 0 →
      getEventById eid s = some e → e.rowOk = true →
      getEventById eid (handleEvents (some u) "POST" "approve" body s now).2 =
        some { e with status := Status.approved, approved_by := some u.id,
                      approved_at := some now, updated_at := now }) ∧
    (∀ u eid now e s body, (u : AuthUser).role = Role.admin ∨ u.role = Role.supervisor →
      (body : Body).eventId = some eid → eid ≠ 0 →
      getEventById eid s = some e → e.rowOk = true →
      getEventById eid (handleEvents (some u) "POST" "reject" body s now).2 =
        some { e with status := Status.rejected, approved_by := some u.id,
                      approved_at := some now, updated_at := now }) := by
  refine ⟨?_, ?_, ?_⟩
  · intro u body s now t ty sd ed ht hty henum hsd hed hle
    rw [create_branch u body s now]
    unfold createEvent
    simp only [ht, hty, hsd, hed]
    rw [if_neg (by rw [henum]; simp), if_neg (Nat.not_lt.mpr hle)]
    exact ⟨_, _, rfl, rfl, rfl, rfl⟩
  · intro u eid now e s body hrole hbody hnz hfind hok
    have hle : e.start_date ≤ e.end_date := ((rowOk_iff e).mp hok).1
    rw [approve_branch u eid body s now hrole hbody hnz,
      approveEvent_spec hfind hle]
    exact @getEventById_after_update eid
      { status := some Status.approved, approved_by := some (some u.id),
        approved_at := some (some now) } s now e hfind
  · intro u eid now e s body hrole hbody hnz hfind hok
    have hle : e.start_date ≤ e.end_date := ((rowOk_iff e).mp hok).1
    rw [reject_branch u eid body s now hrole hbody hnz,
      rejectEvent_spec hfind hle]
    exact @getEventById_after_update eid
      { status := some Status.rejected, approved_by := some (some u.id),
        approved_at := some (some now) } s now e hfind

/-- Witness for C7, amended: concrete create, approve and reject calls and
their stored results. -/
theorem C7_witness :
    (∃ e2 s2, handleEvents (some coordOther) "POST" "create"
        { title := some "W", event_type := some "Festa", start_date := some 4,
          end_date := some 6 } storePending 3 =
        (⟨201, .event (some e2)⟩, s2) ∧
      e2.status = Status.pending ∧ e2.approved_by = none ∧
      e2.approved_at = none) ∧
    getEventById 1 (handleEvents (some supUser) "POST" "approve"
      { eventId := some 1 } storePending 3).2 =
      some { evPending with status := Status.approved, approved_by := some 9,
                            approved_at := some 3, updated_at := 3 } ∧
    getEventById 1 (handleEvents (some supUser) "POST" "reject"
      { eventId := some 1 } storePending 3).2 =
      some { evPending with status := Status.rejected, approved_by := some 9,
                            approved_at := some 3, updated_at := 3 } :=
  ⟨C7_decision_fields.1 coordOther
     { title := some "W", event_type := some "Festa", start_date := some 4,
       end_date := some 6 } storePending 3 "W" "Festa" 4 6
     rfl rfl (by decide) rfl rfl (by decide),
   C7_decision_fields.2.1 supUser 1 3 evPending storePending
     { eventId := some 1 } (Or.inr rfl) rfl (by decide) (by decide) (by decide),
   C7_decision_fields.2.2 supUser 1 3 evPending storePending
     { eventId := some 1 } (Or.inr rfl) rfl (by decide) (by decide) (by decide)⟩

/-- C8, counterexample: a partial-update call supplying only the immutable
field id is silently ignored rather than rejected, and the update timestamp
is not refreshed: the call returns the stored event with updated_at still 1
even though the call time is 3, and the store is unchanged. -/
theorem C8_counterexample :
    updateEvent 1 { id := some 99 } storePending 3 =
      .ok (some evPending, storePending) ∧
    evPending.updated_at ≠ 3 :=
  ⟨rfl, by decide⟩

/-- C8, amended: a partial-update call supplying at least one mutable field
(and passing the database checks) applies exactly the supplied mutable
fields, leaves every unspecified field unchanged, refreshes the update
timestamp via the trigger, and keeps the immutable fields id, created_by
and created_at untouched (a supplied immutable field is silently skipped,
not applied; when no mutable field is supplied nothing runs and the
timestamp is not refreshed). -/
theorem C8_partial_update_frame (eid now : Nat) (u2 : EventUpdate)
    (s : Store) (e : Event)
    (hmut : u2.hasMutableField = true)
    (henum : u2.event_type.any (fun ty => !eventTypeEnum.contains ty) = false)
    (hfind : getEventById eid s = some e)
    (hdate : (applyUpdate e u2 now).start_date ≤ (applyUpdate e u2 now).end_date) :
    ∃ s2, updateEvent eid u2 s now = .ok (some (applyUpdate e u2 now), s2) ∧
      getEventById eid s2 = some (applyUpdate e u2 now) ∧
      (applyUpdate e u2 now).id = e.id ∧
      (applyUpdate e u2 now).created_by = e.created_by ∧
      (applyUpdate e u2 now).created_at = e.created_at ∧
      (applyUpdate e u2 now).updated_at = now ∧
      (applyUpdate e u2 now).title = u2.title.getD e.title ∧
      (applyUpdate e u2 now).description = u2.description.getD e.description ∧
      (applyUpdate e u2 now).start_date = u2.start_date.getD e.start_date ∧
      (applyUpdate e u2 now).end_date = u2.end_date.getD e.end_date ∧
      (applyUpdate e u2 now).start_time = u2.start_time.getD e.start_time ∧
      (applyUpdate e u2 now).end_time = u2.end_time.getD e.end_time ∧
      (applyUpdate e u2 now).all_day = u2.all_day.getD e.all_day ∧
      (applyUpdate e u2 now).event_type = u2.event_type.getD e.event_type ∧
      (applyUpdate e u2 now).status = u2.status.getD e.status ∧
      (applyUpdate e u2 now).approved_by = u2.approved_by.getD e.approved_by ∧
      (applyUpdate e u2 now).approved_at = u2.approved_at.getD e.approved_at :=
  ⟨_, updateEvent_ok hmut henum hfind hdate,
    @getEventById_after_update eid u2 s now e hfind,
    rfl, rfl, rfl, rfl, rfl, rfl, rfl, rfl, rfl, rfl, rfl, rfl, rfl, rfl, rfl⟩

/-- Witness for C8, amended: a concrete partial update supplying a new title
together with an (ignored) id field. -/
theorem C8_witness :
    ∃ s2, updateEvent 1 { id := some 99, title := some "Renamed" }
        storePending 3 =
      .ok (some (applyUpdate evPending { id := some 99, title := some "Renamed" } 3), s2) ∧
      getEventById 1 s2 =
        some (applyUpdate evPending { id := some 99, title := some "Renamed" } 3) ∧
      (applyUpdate evPending { id := some 99, title := some "Renamed" } 3).id = evPending.id ∧
      (applyUpdate evPending { id := some 99, title := some "Renamed" } 3).created_by = evPending.created_by ∧
      (applyUpdate evPending { id := some 99, title := some "Renamed" } 3).created_at = evPending.created_at ∧
      (applyUpdate evPending { id := some 99, title := some "Renamed" } 3).updated_at = 3 ∧
      (applyUpdate evPending { id := some 99, title := some "Renamed" } 3).title =
        Option.getD (some "Renamed") evPending.title ∧
      (applyUpdate evPending { id := some 99, title := some "Renamed" } 3).description =
        Option.getD none evPending.description ∧
      (applyUpdate evPending { id := some 99, title := some "Renamed" } 3).start_date =
        Option.getD none evPending.start_date ∧
      (applyUpdate evPending { id := some 99, title := some "Renamed" } 3).end_date =
        Option.getD none evPending.end_date ∧
      (applyUpdate evPending { id := some 99, title := some "Renamed" } 3).start_time =
        Option.getD none evPending.start_time ∧
      (applyUpdate evPending { id := some 99, title := some "Renamed" } 3).end_time =
        Option.getD none evPending.end_time ∧
      (applyUpdate evPending { id := some 99, title := some "Renamed" } 3).all_day =
        Option.getD none evPending.all_day ∧
      (applyUpdate evPending { id := some 99, title := some "Renamed" } 3).event_type =
        Option.getD none evPending.event_type ∧
      (applyUpdate evPending { id := some 99, title := some "Renamed" } 3).status =
        Option.getD none evPending.status ∧
      (applyUpdate evPending { id := some 99, title := some "Renamed" } 3).approved_by =
        Option.getD none evPending.approved_by ∧
      (applyUpdate evPending { id := some 99, title := some "Renamed" } 3).approved_at =
        Option.getD none evPending.approved_at :=
  C8_partial_update_frame 1 3 { id := some 99, title := some "Renamed" }
    storePending evPending rfl rfl (by decide) (by decide)

theorem handleEventsUser_cases (u : AuthUser) (method action : String)
    (body : Body) (s : Store) (now : Nat) :
    (handleEventsUser u method action body s now).2 = s ∨
    (handleEventsUser u method action body s now).1.status = 200 ∨
    (handleEventsUser u method action body s now).1.status = 201 := by
  unfold handleEventsUser
  repeat' split
  all_goals first
    | exact Or.inl rfl
    | exact Or.inr (Or.inl rfl)
    | exact Or.inr (Or.inr rfl)

/-- C9: whenever a request is denied — the response status is neither 200
nor 201, covering 401, 403, 404, 400 and the 500 constraint failures — the
store after the call is identical to the store before it: errors are
detected before any mutation and a failing database statement mutates
nothing. -/
theorem C9_no_mutation_on_denial (user? : Option AuthUser)
    (method action : String) (body : Body) (s : Store) (now : Nat)
    (h200 : (handleEvents user? method action body s now).1.status ≠ 200)
    (h201 : (handleEvents user? method action body s now).1.status ≠ 201) :
    (handleEvents user? method action body s now).2 = s := by
  cases user? with
  | none => rfl
  | some u =>
    have he : handleEvents (some u) method action body s now =
        handleEventsUser u method action body s now := rfl
    rw [he] at h200 h201 ⊢
    rcases handleEventsUser_cases u method action body s now with h | h | h
    · exact h
    · exact absurd h h200
    · exact absurd h h201

/-- Witness for C9: an unauthenticated create request is answered 401 and
leaves the store untouched. -/
theorem C9_witness :
    (handleEvents none "POST" "create" { title := some "X" } storePending
      3).1.status ≠ 200 ∧
    (handleEvents none "POST" "create" { title := some "X" } storePending
      3).1.status ≠ 201 ∧
    (handleEvents none "POST" "create" { title := some "X" } storePending
      3).2 = storePending :=
  ⟨by decide, by decide,
   C9_no_mutation_on_denial none "POST" "create" { title := some "X" }
     storePending 3 (by decide) (by decide)⟩

/-- C10: every authenticated user, whatever their role, creating an event
with a well-formed body gets status code 201 with the created event, stored
with status pending and created_by equal to the requesting user's id; the
body's own status and created_by fields are never read by the create
branch, so arbitrary client-supplied values for them change nothing. -/
theorem C10_create_pending_owned (u : AuthUser) (body : Body) (s : Store)
    (now : Nat) (t ty : String) (sd ed : Nat)
    (ht : body.title = some t) (hty : body.event_type = some ty)
    (henum : eventTypeEnum.contains ty = true)
    (hsd : body.start_date = some sd) (hed : body.end_date = some ed)
    (hle : sd ≤ ed) :
    ∃ e2, handleEvents (some u) "POST" "create" body s now =
        (⟨201, .event (some e2)⟩,
         { rows := s.rows ++ [e2], nextId := s.nextId + 1 }) ∧
      e2.id = s.nextId ∧ e2.status = Status.pending ∧
      e2.created_by = u.id ∧ e2.approved_by = none ∧ e2.approved_at = none := by
  rw [create_branch u body s now]
  unfold createEvent
  simp only [ht, hty, hsd, hed]
  rw [if_neg (by rw [henum]; simp), if_neg (Nat.not_lt.mpr hle)]
  exact ⟨_, rfl, rfl, rfl, rfl, rfl, rfl⟩

/-- Witness for C10: coordenador 6 creates an event while supplying
status approved and created_by 42 in the body; the stored event is pending
and owned by 6. -/
theorem C10_witness :
    ∃ e2, handleEvents (some coordOther) "POST" "create"
        { title := some "V", event_type := some "Evento", start_date := some 7,
          end_date := some 8, status := some Status.approved,
          created_by := some 42 } storePending 3 =
        (⟨201, .event (some e2)⟩,
         { rows := storePending.rows ++ [e2],
           nextId := storePending.nextId + 1 }) ∧
      e2.id = storePending.nextId ∧ e2.status = Status.pending ∧
      e2.created_by = coordOther.id ∧ e2.approved_by = none ∧
      e2.approved_at = none :=
  C10_create_pending_owned coordOther
    { title := some "V", event_type := some "Evento", start_date := some 7,
      end_date := some 8, status := some Status.approved,
      created_by := some 42 } storePending 3 "V" "Evento" 7 8
    rfl rfl (by decide) rfl rfl (by decide)

end EventDesk

